import Mathlib

/-!
Shallow embedding of the Maestro renderer components and main-process
utilities that the verified claims are about:

  - EraseConfirmationModal (exact-name confirmation for erasing a directory)
  - DeleteAgentConfirmModal (both revisions; case-insensitive trimmed match)
  - WorktreeRunSection (worktree scan filtering, target emission,
    cancellation flags of its two async effects)
  - Sentry crash-reporting wrappers and memory monitoring lifecycle
  - useOsPlatform hook with its module-level cache
  - uiStore (Zustand store actions)

Each definition is translated from the corresponding TypeScript source.
JavaScript string primitives used by those sources (trim, toLowerCase,
startsWith, slice) are modelled over the character list of a Lean String.
-/

/-- Model of the JavaScript method String.prototype.trim: removes leading and
trailing whitespace characters. -/
def jsTrim (s : String) : String :=
  String.mk (((s.data.dropWhile Char.isWhitespace).reverse.dropWhile Char.isWhitespace).reverse)

/-- Model of the JavaScript method String.prototype.toLowerCase, mapping each
character to lower case. -/
def jsToLower (s : String) : String :=
  String.mk (s.data.map Char.toLower)

/-- Model of the JavaScript method String.prototype.startsWith. -/
def jsStartsWith (s pre : String) : Bool :=
  pre.data.isPrefixOf s.data

/-- Model of the JavaScript call s.slice(n): the characters of s from index n on. -/
def jsSliceFrom (s : String) (n : Nat) : String :=
  String.mk (s.data.drop n)

namespace EraseModal

/-- EraseConfirmationModal.tsx line 26: isMatch is the exact comparison
typedName === sessionName (no trimming, case sensitive). -/
def eraseIsMatch (typedName sessionName : String) : Bool :=
  typedName == sessionName

/-- EraseConfirmationModal.tsx line 70: the erase button carries
disabled equal to the negation of isMatch. -/
def eraseConfirmDisabled (typedName sessionName : String) : Bool :=
  !(eraseIsMatch typedName sessionName)

end EraseModal

namespace DeleteModal

/-- DeleteAgentConfirmModal.tsx lines 28 to 29 (first revision) and lines 209
to 211 (second revision): both revisions compute the same expression,
comparing confirmation text and agent name after trimming and lower-casing. -/
def isAgentNameMatch (confirmationText agentName : String) : Bool :=
  jsToLower (jsTrim confirmationText) == jsToLower (jsTrim agentName)

/-- Both revisions pass disabled as the negation of isAgentNameMatch on the
button labelled with the agent-and-work-directory action. -/
def agentEraseDisabled (confirmationText agentName : String) : Bool :=
  !(isAgentNameMatch confirmationText agentName)

end DeleteModal

namespace Worktree

/-- Fields of the renderer Session record used by WorktreeRunSection:
id, parentSessionId (absent on sessions that are not worktree children)
and cwd. -/
structure Session where
  id : String
  parentSessionId : Option String
  cwd : String
deriving DecidableEq, Repr

/-- An entry of the scan result gitSubdirs: path, name and optional branch. -/
structure WorktreeInfo where
  path : String
  name : String
  branch : Option String
deriving DecidableEq, Repr

/-- WorktreeRunSection.tsx lines 34 to 37: the worktree children of the active
session are the sessions whose parentSessionId strictly equals the active
session id. -/
def worktreeChildren (sessions : List Session) (active : Session) : List Session :=
  sessions.filter (fun s => s.parentSessionId == some active.id)

/-- WorktreeRunSection.tsx lines 82 to 88 (inside the scan effect): build the
set of cwd paths of the captured worktree children and keep only the scanned
subdirectories whose path is not in that set. -/
def filterOpenWorktrees (gitSubdirs : List WorktreeInfo) (children : List Session) :
    List WorktreeInfo :=
  let openPaths := children.map (fun s => s.cwd)
  gitSubdirs.filter (fun wt => !(openPaths.contains wt.path))

/-- The list stored into availableWorktrees by the scan effect, as a function
of the scan result, the session list and the active session. -/
def scanFilterWorktrees (gitSubdirs : List WorktreeInfo) (sessions : List Session)
    (active : Session) : List WorktreeInfo :=
  filterOpenWorktrees gitSubdirs (worktreeChildren sessions active)

end Worktree

namespace Worktree

/-- The WorktreeRunTarget union from the renderer types, as used by
WorktreeRunSection: one of three modes, each carrying its own payload plus
the createPROnCompletion flag. -/
inductive WorktreeRunTarget where
  | createNew (baseBranch : Option String) (newBranchName : Option String)
      (createPROnCompletion : Bool)
  | existingClosed (worktreePath : String) (createPROnCompletion : Bool)
  | existingOpen (sessionId : String) (createPROnCompletion : Bool)
deriving DecidableEq, Repr

/-- WorktreeRunSection.tsx lines 114 to 141: emitChange. The branches follow
the source order: the literal "__create_new__" first (with the JavaScript
falsy-to-undefined coercion baseBranch or undefined modelled by mapping the
empty string to none), then values starting with "__closed__:" (payload is
the value with that marker sliced off), then any other truthy (non-empty)
value, and finally no call to onWorktreeTargetChange at all. -/
def emitChange (baseBranch newBranchName : String) (value : String) (prFlag : Bool) :
    Option WorktreeRunTarget :=
  if value == "__create_new__" then
    some (.createNew (if baseBranch == "" then none else some baseBranch)
      (if newBranchName == "" then none else some newBranchName) prFlag)
  else if jsStartsWith value "__closed__:" then
    some (.existingClosed (jsSliceFrom value ("__closed__:".length)) prFlag)
  else if value == "" then
    none
  else
    some (.existingOpen value prFlag)

/-- The behaviour the specification describes for emitChange, written in the
order of the claim: the empty value emits nothing; the value "__create_new__"
yields mode create-new carrying base branch and new branch name when
non-empty, else none; a value beginning with "__closed__:" yields mode
existing-closed with the remainder after the marker; any other non-empty
value yields mode existing-open with the value as session id. -/
def emitChangeClaimed (baseBranch newBranchName : String) (value : String) (prFlag : Bool) :
    Option WorktreeRunTarget :=
  if value = "" then
    none
  else if value = "__create_new__" then
    some (.createNew (if baseBranch = "" then none else some baseBranch)
      (if newBranchName = "" then none else some newBranchName) prFlag)
  else if jsStartsWith value "__closed__:" then
    some (.existingClosed (jsSliceFrom value ("__closed__:".length)) prFlag)
  else
    some (.existingOpen value prFlag)

end Worktree

namespace EraseModal

/-- Callbacks the EraseConfirmationModal can invoke on its props. -/
inductive Cb where
  | onConfirm
  | onCancel
deriving DecidableEq, Repr

/-- User events the EraseConfirmationModal wires handlers to: clicking the
erase button, submitting the text input, a key on the erase button, clicking
Cancel, a key on Cancel, and the Modal onClose (Escape or backdrop). -/
inductive Ev where
  | clickConfirm
  | submitInput
  | keyConfirmButton (key : String)
  | clickCancel
  | keyCancelButton (key : String)
  | closeModal
deriving DecidableEq, Repr

/-- EraseConfirmationModal.tsx lines 28 to 32: handleConfirm calls onConfirm
only when isMatch holds. -/
def handleConfirm (typed session : String) : List Cb :=
  if eraseIsMatch typed session then [Cb.onConfirm] else []

/-- EraseConfirmationModal.tsx lines 35 to 40: handleKeyDown runs the given
action only when the pressed key is Enter. -/
def handleKeyDown (key : String) (action : List Cb) : List Cb :=
  if key == "Enter" then action else []

/-- The callbacks invoked for each event, translated from the JSX wiring:
the erase button onClick is handleConfirm; the FormInput onSubmit is
handleConfirm (whatever FormInput does internally with submitEnabled, the
guard inside handleConfirm already applies); the erase button onKeyDown runs
handleKeyDown on handleConfirm only when isMatch holds (line 69); the Cancel
button onClick is onCancel, its onKeyDown runs onCancel on Enter, and the
Modal onClose is onCancel. -/
def dispatch (typed session : String) : Ev → List Cb
  | Ev.clickConfirm => handleConfirm typed session
  | Ev.submitInput => handleConfirm typed session
  | Ev.keyConfirmButton k =>
      if eraseIsMatch typed session then handleKeyDown k (handleConfirm typed session) else []
  | Ev.clickCancel => [Cb.onCancel]
  | Ev.keyCancelButton k => handleKeyDown k [Cb.onCancel]
  | Ev.closeModal => [Cb.onCancel]

end EraseModal

namespace DeleteModal

/-- Callbacks the DeleteAgentConfirmModal can invoke on its props. -/
inductive Cb where
  | onConfirm
  | onConfirmAndErase
  | onClose
deriving DecidableEq, Repr

/-- User events the DeleteAgentConfirmModal wires handlers to. -/
inductive Ev where
  | clickEraseButton
  | keyEraseButton (key : String)
  | keyInput (key : String)
  | clickAgentOnly
  | keyAgentOnly (key : String)
  | clickCancel
  | keyCancel (key : String)
  | closeModal
deriving DecidableEq, Repr

/-- Both revisions: handleConfirm invokes onConfirm then onClose with no
guard. -/
def handleConfirm : List Cb :=
  [Cb.onConfirm, Cb.onClose]

/-- First revision lines 36 to 41 and second revision lines 218 to 222:
handleConfirmAndErase invokes onConfirmAndErase then onClose only when
isAgentNameMatch holds (the second revision uses an early return, same
semantics). -/
def handleConfirmAndErase (text name : String) : List Cb :=
  if isAgentNameMatch text name then [Cb.onConfirmAndErase, Cb.onClose] else []

/-- Shared helper in both revisions: run the action only on Enter. -/
def handleKeyDown (key : String) (action : List Cb) : List Cb :=
  if key == "Enter" then action else []

/-- First revision event wiring: the erase button onClick is
handleConfirmAndErase, its onKeyDown runs handleKeyDown on it only when
isAgentNameMatch holds (lines 107 to 111); the confirmation input onKeyDown
(lines 56 to 62) triggers handleConfirmAndErase on Enter only when the name
matches; Agent Only and Cancel are unguarded; the Modal onClose is onClose. -/
def dispatchRev1 (text name : String) : Ev → List Cb
  | Ev.clickEraseButton => handleConfirmAndErase text name
  | Ev.keyEraseButton k =>
      if isAgentNameMatch text name then handleKeyDown k (handleConfirmAndErase text name)
      else []
  | Ev.keyInput k =>
      if k == "Enter" && isAgentNameMatch text name then handleConfirmAndErase text name
      else []
  | Ev.clickAgentOnly => handleConfirm
  | Ev.keyAgentOnly k => handleKeyDown k handleConfirm
  | Ev.clickCancel => [Cb.onClose]
  | Ev.keyCancel k => handleKeyDown k [Cb.onClose]
  | Ev.closeModal => [Cb.onClose]

/-- Second revision event wiring: the erase button onKeyDown runs
handleKeyDown on handleConfirmAndErase with no outer guard (line 272), and
the confirmation input has no onKeyDown handler at all, so Enter inside the
input invokes nothing directly. -/
def dispatchRev2 (text name : String) : Ev → List Cb
  | Ev.clickEraseButton => handleConfirmAndErase text name
  | Ev.keyEraseButton k => handleKeyDown k (handleConfirmAndErase text name)
  | Ev.keyInput _ => []
  | Ev.clickAgentOnly => handleConfirm
  | Ev.keyAgentOnly k => handleKeyDown k handleConfirm
  | Ev.clickCancel => [Cb.onClose]
  | Ev.keyCancel k => handleKeyDown k [Cb.onClose]
  | Ev.closeModal => [Cb.onClose]

end DeleteModal

namespace Worktree

/-- The comparator of WorktreeRunSection.tsx lines 49 to 55 as a boolean
less-or-equal test: main and master sort before every other branch, branches
of equal mainness compare lexicographically (model of localeCompare). -/
def branchLE (a b : String) : Bool :=
  let aIsMain := a == "main" || a == "master"
  let bIsMain := b == "main" || b == "master"
  if aIsMain && !bIsMain then true
  else if !aIsMain && bIsMain then false
  else decide (a ≤ b)

/-- Insert one branch into an already sorted list according to branchLE. -/
def insertBranch (x : String) : List String → List String
  | [] => [x]
  | y :: ys => if branchLE x y then x :: y :: ys else y :: insertBranch x ys

/-- Model of the sort call in the getBranches effect: insertion sort with the
branch comparator. -/
def sortBranches (l : List String) : List String :=
  l.foldr insertBranch []

/-- The component state the two async effects of WorktreeRunSection mutate:
availableWorktrees and isScanning (scan effect), branches, baseBranch and
newBranchName (branch-fetch effect). -/
structure WRState where
  availableWorktrees : List WorktreeInfo
  isScanning : Bool
  branches : List String
  baseBranch : String
  newBranchName : String
deriving DecidableEq, Repr

/-- WorktreeRunSection.tsx lines 80 to 96: continuation run when the
scanWorktreeDirectory promise settles. On success the cancelled flag is
checked first and, when clear, the filtered list is stored and isScanning
cleared; on rejection the catch clears the list and isScanning unless
cancelled. The worktree children captured by the effect closure are passed
explicitly. -/
def scanResolveStep (cancelled : Bool) (children : List Session)
    (result : Except Unit (List WorktreeInfo)) (st : WRState) : WRState :=
  match result with
  | Except.ok gitSubdirs =>
      if cancelled then st
      else { st with
        availableWorktrees := filterOpenWorktrees gitSubdirs children
        isScanning := false }
  | Except.error _ =>
      if !cancelled then
        { st with availableWorktrees := [], isScanning := false }
      else st

/-- WorktreeRunSection.tsx lines 46 to 62: continuation run when the
getBranches promise resolves. When not cancelled the sorted branches are
stored and, if the sorted list is non-empty and the closure-captured
baseBranch was falsy, the first branch and a generated branch name (with the
current month-day string mmdd) are stored. -/
def branchesResolveStep (cancelled : Bool) (capturedBaseBranch mmdd : String)
    (result : List String) (st : WRState) : WRState :=
  if cancelled then st
  else
    let sorted := sortBranches result
    let st1 := { st with branches := sorted }
    match sorted with
    | [] => st1
    | b0 :: _ =>
        if capturedBaseBranch == "" then
          { st1 with
            baseBranch := b0
            newBranchName := "auto-run-" ++ b0 ++ "-" ++ mmdd }
        else st1

/-- Events of an effect instance lifecycle: the React cleanup (which sets the
cancelled flag of the closure) and the two promise continuations. -/
inductive WREvent where
  | cleanup
  | scanResolve (children : List Session) (result : Except Unit (List WorktreeInfo))
  | branchesResolve (capturedBaseBranch mmdd : String) (result : List String)

/-- One step of the effect lifecycle over the pair of the cancelled flag and
the component state: cleanup sets the flag, a continuation runs with the
current flag value. -/
def wrStep : Bool × WRState → WREvent → Bool × WRState
  | (_, st), WREvent.cleanup => (true, st)
  | (c, st), WREvent.scanResolve ch r => (c, scanResolveStep c ch r st)
  | (c, st), WREvent.branchesResolve bb d r => (c, branchesResolveStep c bb d r st)

/-- Run a sequence of lifecycle events. -/
def wrRun (init : Bool × WRState) (evs : List WREvent) : Bool × WRState :=
  evs.foldl wrStep init

end Worktree

namespace Sentry

/-- Behavioural model of a loaded crash-reporting SDK module: for each of the
three wrapped functions, whether calling it throws. -/
structure SentryModuleModel where
  captureExceptionThrows : Bool
  captureMessageThrows : Bool
  addBreadcrumbThrows : Bool
deriving DecidableEq, Repr

/-- The try-block of captureException (sentry utilities lines 55 to 60): when
no module is cached, await the dynamic import (which may reject); on success
the module is cached, then its captureException is called (which may throw).
The result pairs the cache after the body with the outcome of the body. -/
def captureExceptionTry (cached : Option SentryModuleModel)
    (loadResult : Except Unit SentryModuleModel) :
    Option SentryModuleModel × Except Unit Unit :=
  match cached with
  | some m => (some m, if m.captureExceptionThrows then Except.error () else Except.ok ())
  | none =>
      match loadResult with
      | Except.error e => (none, Except.error e)
      | Except.ok m =>
          (some m, if m.captureExceptionThrows then Except.error () else Except.ok ())

/-- captureException (lines 51 to 65): the try-body wrapped in the catch that
swallows every failure, logging at debug level only. -/
def captureExceptionRun (cached : Option SentryModuleModel)
    (loadResult : Except Unit SentryModuleModel) :
    Option SentryModuleModel × Except Unit Unit :=
  match captureExceptionTry cached loadResult with
  | (c, Except.ok _) => (c, Except.ok ())
  | (c, Except.error _) => (c, Except.ok ())

/-- The try-block of captureMessage (lines 80 to 85), same shape with the
captureMessage SDK call. -/
def captureMessageTry (cached : Option SentryModuleModel)
    (loadResult : Except Unit SentryModuleModel) :
    Option SentryModuleModel × Except Unit Unit :=
  match cached with
  | some m => (some m, if m.captureMessageThrows then Except.error () else Except.ok ())
  | none =>
      match loadResult with
      | Except.error e => (none, Except.error e)
      | Except.ok m =>
          (some m, if m.captureMessageThrows then Except.error () else Except.ok ())

/-- captureMessage (lines 75 to 90): try-body wrapped in the swallowing
catch. -/
def captureMessageRun (cached : Option SentryModuleModel)
    (loadResult : Except Unit SentryModuleModel) :
    Option SentryModuleModel × Except Unit Unit :=
  match captureMessageTry cached loadResult with
  | (c, Except.ok _) => (c, Except.ok ())
  | (c, Except.error _) => (c, Except.ok ())

/-- The try-block of addBreadcrumb (lines 114 to 124), same shape with the
addBreadcrumb SDK call. -/
def addBreadcrumbTry (cached : Option SentryModuleModel)
    (loadResult : Except Unit SentryModuleModel) :
    Option SentryModuleModel × Except Unit Unit :=
  match cached with
  | some m => (some m, if m.addBreadcrumbThrows then Except.error () else Except.ok ())
  | none =>
      match loadResult with
      | Except.error e => (none, Except.error e)
      | Except.ok m =>
          (some m, if m.addBreadcrumbThrows then Except.error () else Except.ok ())

/-- addBreadcrumb (lines 108 to 128): try-body wrapped in the silently
swallowing catch. -/
def addBreadcrumbRun (cached : Option SentryModuleModel)
    (loadResult : Except Unit SentryModuleModel) :
    Option SentryModuleModel × Except Unit Unit :=
  match addBreadcrumbTry cached loadResult with
  | (c, Except.ok _) => (c, Except.ok ())
  | (c, Except.error _) => (c, Except.ok ())

end Sentry

namespace OsPlatform

/-- JavaScript truthiness of the module-level cachedPlatform variable (null or
a string): null and the empty string are falsy. -/
def jsTruthy (c : Option String) : Bool :=
  match c with
  | none => false
  | some s => !(s == "")

/-- The JavaScript expression cachedPlatform or-else "unknown" used as the
useState initializer: falsy cache values fall back to "unknown". -/
def jsOrUnknown (c : Option String) : String :=
  match c with
  | none => "unknown"
  | some s => if s == "" then "unknown" else s

/-- Observable outcome of one invocation of the useOsPlatform hook: the value
returned on the very first render, whether the effect performed the
getPlatform IPC call, the module-level cache after the effect settles, and
the platform value the hook ends up reporting. -/
structure HookRun where
  firstRender : String
  didIpc : Bool
  cacheAfter : Option String
  finalPlatform : String
deriving DecidableEq, Repr

/-- useOsPlatform (lines 65 to 107 of the hook file): the initializer returns
the cached platform or "unknown"; the effect returns early when the cache is
truthy (no IPC); with no API available it sets "unknown"; otherwise it awaits
getPlatform: a resolution while still mounted writes the cache and the state,
a resolution after unmount changes nothing, and a rejection is not cached and
sets "unknown" when still mounted. -/
def useOsPlatformRun (cached : Option String) (apiAvailable mounted : Bool)
    (ipc : Except Unit String) : HookRun :=
  let first := jsOrUnknown cached
  if jsTruthy cached then
    ⟨first, false, cached, first⟩
  else if !apiAvailable then
    ⟨first, false, cached, "unknown"⟩
  else
    match ipc with
    | Except.ok r => if mounted then ⟨first, true, some r, r⟩ else ⟨first, true, cached, first⟩
    | Except.error _ => ⟨first, true, cached, if mounted then "unknown" else first⟩

end OsPlatform

namespace MemMonitor

/-- A live interval handle as installed by setInterval, remembering the
configured threshold and interval the closure was created with, plus a timer
identity so distinct installations are distinguishable. -/
structure IntervalHandle where
  timerId : Nat
  thresholdMB : Nat
  intervalMs : Nat
deriving DecidableEq, Repr

/-- The module-level mutable state of the memory monitoring utilities: the
memoryMonitorInterval variable (null when not running) and the next timer
identity the environment would hand out. -/
structure MonitorState where
  memoryMonitorInterval : Option IntervalHandle
  nextTimerId : Nat
deriving DecidableEq, Repr

/-- startMemoryMonitoring (sentry utilities lines 142 to 186): an early
return leaves everything unchanged when an interval is already running;
otherwise setInterval installs a fresh handle configured with the given
threshold and interval. -/
def startMemoryMonitoring (thresholdMB intervalMs : Nat) (st : MonitorState) : MonitorState :=
  if st.memoryMonitorInterval.isSome then st
  else
    { memoryMonitorInterval := some ⟨st.nextTimerId, thresholdMB, intervalMs⟩
      nextTimerId := st.nextTimerId + 1 }

/-- stopMemoryMonitoring (lines 191 to 197): clearInterval and null the
variable when running, otherwise do nothing. -/
def stopMemoryMonitoring (st : MonitorState) : MonitorState :=
  match st.memoryMonitorInterval with
  | some _ => { st with memoryMonitorInterval := none }
  | none => st

end MemMonitor

namespace UIStore

/-- The value-or-updater argument shape shared by the uiStore setters,
matching the setState signature of the source: a direct value or a function
of the previous value. -/
inductive Upd (α : Type) where
  | val (x : α)
  | fn (f : α → α)

/-- uiStore lines 110 to 112: resolve applies a function-updater to the
previous value and returns a direct value unchanged (the typeof check of the
source becomes a match on the Upd shape). -/
def resolve {α : Type} : Upd α → α → α
  | Upd.val x, _ => x
  | Upd.fn f, prev => f prev

/-- UIStoreState from the uiStore source, lines 14 to 54. FocusArea and
RightPanelTab are string unions in the renderer types and are modelled as
strings. -/
structure UIStoreState where
  leftSidebarOpen : Bool
  rightPanelOpen : Bool
  activeFocus : String
  activeRightTab : String
  bookmarksCollapsed : Bool
  groupChatsExpanded : Bool
  showUnreadOnly : Bool
  preFilterActiveTabId : Option String
  preTerminalFileTabId : Option String
  selectedSidebarIndex : Int
  selectedFileIndex : Int
  fileTreeFilter : String
  fileTreeFilterOpen : Bool
  flashNotification : Option String
  successFlashNotification : Option String
  outputSearchOpen : Bool
  outputSearchQuery : String
  draggingSessionId : Option String
  editingGroupId : Option String
  editingSessionId : Option String

/-- The initial state of the store, uiStore lines 116 to 135. -/
def initialUIState : UIStoreState :=
  { leftSidebarOpen := true
    rightPanelOpen := true
    activeFocus := "main"
    activeRightTab := "files"
    bookmarksCollapsed := false
    groupChatsExpanded := true
    showUnreadOnly := false
    preFilterActiveTabId := none
    preTerminalFileTabId := none
    selectedSidebarIndex := 0
    selectedFileIndex := 0
    fileTreeFilter := ""
    fileTreeFilterOpen := false
    flashNotification := none
    successFlashNotification := none
    outputSearchOpen := false
    outputSearchQuery := ""
    draggingSessionId := none
    editingGroupId := none
    editingSessionId := none }

/-- The actions of the store (uiStore lines 138 to 176), each carrying its
argument. Zustand merges the returned partial object into the state, which a
record update models. -/
inductive UIAction where
  | setLeftSidebarOpen (v : Upd Bool)
  | toggleLeftSidebar
  | setRightPanelOpen (v : Upd Bool)
  | toggleRightPanel
  | setActiveFocus (v : Upd String)
  | setActiveRightTab (v : Upd String)
  | setBookmarksCollapsed (v : Upd Bool)
  | toggleBookmarksCollapsed
  | setGroupChatsExpanded (v : Upd Bool)
  | toggleGroupChatsExpanded
  | setShowUnreadOnly (v : Upd Bool)
  | toggleShowUnreadOnly
  | setPreFilterActiveTabId (id : Option String)
  | setPreTerminalFileTabId (id : Option String)
  | setSelectedSidebarIndex (v : Upd Int)
  | setSelectedFileIndex (v : Upd Int)
  | setFileTreeFilter (v : Upd String)
  | setFileTreeFilterOpen (v : Upd Bool)
  | setFlashNotification (v : Upd (Option String))
  | setSuccessFlashNotification (v : Upd (Option String))
  | setOutputSearchOpen (v : Upd Bool)
  | setOutputSearchQuery (v : Upd String)
  | setDraggingSessionId (v : Upd (Option String))
  | setEditingGroupId (v : Upd (Option String))
  | setEditingSessionId (v : Upd (Option String))

/-- The state transition of each action, translated arm by arm from uiStore
lines 138 to 176: every setter stores resolve of its argument over the
previous value of its designated field (the two plain setters store the
argument directly), every toggle stores the negation of its field, and the
partial-object merge of the source is the record update. -/
def applyAction : UIAction → UIStoreState → UIStoreState
  | UIAction.setLeftSidebarOpen v, s =>
      { s with leftSidebarOpen := resolve v s.leftSidebarOpen }
  | UIAction.toggleLeftSidebar, s => { s with leftSidebarOpen := !s.leftSidebarOpen }
  | UIAction.setRightPanelOpen v, s =>
      { s with rightPanelOpen := resolve v s.rightPanelOpen }
  | UIAction.toggleRightPanel, s => { s with rightPanelOpen := !s.rightPanelOpen }
  | UIAction.setActiveFocus v, s => { s with activeFocus := resolve v s.activeFocus }
  | UIAction.setActiveRightTab v, s =>
      { s with activeRightTab := resolve v s.activeRightTab }
  | UIAction.setBookmarksCollapsed v, s =>
      { s with bookmarksCollapsed := resolve v s.bookmarksCollapsed }
  | UIAction.toggleBookmarksCollapsed, s =>
      { s with bookmarksCollapsed := !s.bookmarksCollapsed }
  | UIAction.setGroupChatsExpanded v, s =>
      { s with groupChatsExpanded := resolve v s.groupChatsExpanded }
  | UIAction.toggleGroupChatsExpanded, s =>
      { s with groupChatsExpanded := !s.groupChatsExpanded }
  | UIAction.setShowUnreadOnly v, s =>
      { s with showUnreadOnly := resolve v s.showUnreadOnly }
  | UIAction.toggleShowUnreadOnly, s => { s with showUnreadOnly := !s.showUnreadOnly }
  | UIAction.setPreFilterActiveTabId id, s => { s with preFilterActiveTabId := id }
  | UIAction.setPreTerminalFileTabId id, s => { s with preTerminalFileTabId := id }
  | UIAction.setSelectedSidebarIndex v, s =>
      { s with selectedSidebarIndex := resolve v s.selectedSidebarIndex }
  | UIAction.setSelectedFileIndex v, s =>
      { s with selectedFileIndex := resolve v s.selectedFileIndex }
  | UIAction.setFileTreeFilter v, s =>
      { s with fileTreeFilter := resolve v s.fileTreeFilter }
  | UIAction.setFileTreeFilterOpen v, s =>
      { s with fileTreeFilterOpen := resolve v s.fileTreeFilterOpen }
  | UIAction.setFlashNotification v, s =>
      { s with flashNotification := resolve v s.flashNotification }
  | UIAction.setSuccessFlashNotification v, s =>
      { s with successFlashNotification := resolve v s.successFlashNotification }
  | UIAction.setOutputSearchOpen v, s =>
      { s with outputSearchOpen := resolve v s.outputSearchOpen }
  | UIAction.setOutputSearchQuery v, s =>
      { s with outputSearchQuery := resolve v s.outputSearchQuery }
  | UIAction.setDraggingSessionId v, s =>
      { s with draggingSessionId := resolve v s.draggingSessionId }
  | UIAction.setEditingGroupId v, s =>
      { s with editingGroupId := resolve v s.editingGroupId }
  | UIAction.setEditingSessionId v, s =>
      { s with editingSessionId := resolve v s.editingSessionId }

/-- Names of the twenty fields of UIStoreState, used to state the frame
property field by field. -/
inductive UIField where
  | leftSidebarOpen
  | rightPanelOpen
  | activeFocus
  | activeRightTab
  | bookmarksCollapsed
  | groupChatsExpanded
  | showUnreadOnly
  | preFilterActiveTabId
  | preTerminalFileTabId
  | selectedSidebarIndex
  | selectedFileIndex
  | fileTreeFilter
  | fileTreeFilterOpen
  | flashNotification
  | successFlashNotification
  | outputSearchOpen
  | outputSearchQuery
  | draggingSessionId
  | editingGroupId
  | editingSessionId
deriving DecidableEq, Repr

/-- Common codomain for reading any field of the state. -/
inductive UIFieldVal where
  | b (x : Bool)
  | s (x : String)
  | os (x : Option String)
  | i (x : Int)
deriving DecidableEq, Repr

/-- Read the field named f out of the state. -/
def getField (st : UIStoreState) : UIField → UIFieldVal
  | UIField.leftSidebarOpen => UIFieldVal.b st.leftSidebarOpen
  | UIField.rightPanelOpen => UIFieldVal.b st.rightPanelOpen
  | UIField.activeFocus => UIFieldVal.s st.activeFocus
  | UIField.activeRightTab => UIFieldVal.s st.activeRightTab
  | UIField.bookmarksCollapsed => UIFieldVal.b st.bookmarksCollapsed
  | UIField.groupChatsExpanded => UIFieldVal.b st.groupChatsExpanded
  | UIField.showUnreadOnly => UIFieldVal.b st.showUnreadOnly
  | UIField.preFilterActiveTabId => UIFieldVal.os st.preFilterActiveTabId
  | UIField.preTerminalFileTabId => UIFieldVal.os st.preTerminalFileTabId
  | UIField.selectedSidebarIndex => UIFieldVal.i st.selectedSidebarIndex
  | UIField.selectedFileIndex => UIFieldVal.i st.selectedFileIndex
  | UIField.fileTreeFilter => UIFieldVal.s st.fileTreeFilter
  | UIField.fileTreeFilterOpen => UIFieldVal.b st.fileTreeFilterOpen
  | UIField.flashNotification => UIFieldVal.os st.flashNotification
  | UIField.successFlashNotification => UIFieldVal.os st.successFlashNotification
  | UIField.outputSearchOpen => UIFieldVal.b st.outputSearchOpen
  | UIField.outputSearchQuery => UIFieldVal.s st.outputSearchQuery
  | UIField.draggingSessionId => UIFieldVal.os st.draggingSessionId
  | UIField.editingGroupId => UIFieldVal.os st.editingGroupId
  | UIField.editingSessionId => UIFieldVal.os st.editingSessionId

/-- The field each action is designated to update. -/
def targetField : UIAction → UIField
  | UIAction.setLeftSidebarOpen _ => UIField.leftSidebarOpen
  | UIAction.toggleLeftSidebar => UIField.leftSidebarOpen
  | UIAction.setRightPanelOpen _ => UIField.rightPanelOpen
  | UIAction.toggleRightPanel => UIField.rightPanelOpen
  | UIAction.setActiveFocus _ => UIField.activeFocus
  | UIAction.setActiveRightTab _ => UIField.activeRightTab
  | UIAction.setBookmarksCollapsed _ => UIField.bookmarksCollapsed
  | UIAction.toggleBookmarksCollapsed => UIField.bookmarksCollapsed
  | UIAction.setGroupChatsExpanded _ => UIField.groupChatsExpanded
  | UIAction.toggleGroupChatsExpanded => UIField.groupChatsExpanded
  | UIAction.setShowUnreadOnly _ => UIField.showUnreadOnly
  | UIAction.toggleShowUnreadOnly => UIField.showUnreadOnly
  | UIAction.setPreFilterActiveTabId _ => UIField.preFilterActiveTabId
  | UIAction.setPreTerminalFileTabId _ => UIField.preTerminalFileTabId
  | UIAction.setSelectedSidebarIndex _ => UIField.selectedSidebarIndex
  | UIAction.setSelectedFileIndex _ => UIField.selectedFileIndex
  | UIAction.setFileTreeFilter _ => UIField.fileTreeFilter
  | UIAction.setFileTreeFilterOpen _ => UIField.fileTreeFilterOpen
  | UIAction.setFlashNotification _ => UIField.flashNotification
  | UIAction.setSuccessFlashNotification _ => UIField.successFlashNotification
  | UIAction.setOutputSearchOpen _ => UIField.outputSearchOpen
  | UIAction.setOutputSearchQuery _ => UIField.outputSearchQuery
  | UIAction.setDraggingSessionId _ => UIField.draggingSessionId
  | UIAction.setEditingGroupId _ => UIField.editingGroupId
  | UIAction.setEditingSessionId _ => UIField.editingSessionId

/-- What the claim says the designated field becomes: the resolved argument
for a setter with value-or-updater argument, the argument itself for the two
plain setters, and the negated previous value for a toggle. -/
def claimedNewValue : UIAction → UIStoreState → UIFieldVal
  | UIAction.setLeftSidebarOpen v, s => UIFieldVal.b (resolve v s.leftSidebarOpen)
  | UIAction.toggleLeftSidebar, s => UIFieldVal.b (!s.leftSidebarOpen)
  | UIAction.setRightPanelOpen v, s => UIFieldVal.b (resolve v s.rightPanelOpen)
  | UIAction.toggleRightPanel, s => UIFieldVal.b (!s.rightPanelOpen)
  | UIAction.setActiveFocus v, s => UIFieldVal.s (resolve v s.activeFocus)
  | UIAction.setActiveRightTab v, s => UIFieldVal.s (resolve v s.activeRightTab)
  | UIAction.setBookmarksCollapsed v, s => UIFieldVal.b (resolve v s.bookmarksCollapsed)
  | UIAction.toggleBookmarksCollapsed, s => UIFieldVal.b (!s.bookmarksCollapsed)
  | UIAction.setGroupChatsExpanded v, s => UIFieldVal.b (resolve v s.groupChatsExpanded)
  | UIAction.toggleGroupChatsExpanded, s => UIFieldVal.b (!s.groupChatsExpanded)
  | UIAction.setShowUnreadOnly v, s => UIFieldVal.b (resolve v s.showUnreadOnly)
  | UIAction.toggleShowUnreadOnly, s => UIFieldVal.b (!s.showUnreadOnly)
  | UIAction.setPreFilterActiveTabId id, _ => UIFieldVal.os id
  | UIAction.setPreTerminalFileTabId id, _ => UIFieldVal.os id
  | UIAction.setSelectedSidebarIndex v, s => UIFieldVal.i (resolve v s.selectedSidebarIndex)
  | UIAction.setSelectedFileIndex v, s => UIFieldVal.i (resolve v s.selectedFileIndex)
  | UIAction.setFileTreeFilter v, s => UIFieldVal.s (resolve v s.fileTreeFilter)
  | UIAction.setFileTreeFilterOpen v, s => UIFieldVal.b (resolve v s.fileTreeFilterOpen)
  | UIAction.setFlashNotification v, s => UIFieldVal.os (resolve v s.flashNotification)
  | UIAction.setSuccessFlashNotification v, s =>
      UIFieldVal.os (resolve v s.successFlashNotification)
  | UIAction.setOutputSearchOpen v, s => UIFieldVal.b (resolve v s.outputSearchOpen)
  | UIAction.setOutputSearchQuery v, s => UIFieldVal.s (resolve v s.outputSearchQuery)
  | UIAction.setDraggingSessionId v, s => UIFieldVal.os (resolve v s.draggingSessionId)
  | UIAction.setEditingGroupId v, s => UIFieldVal.os (resolve v s.editingGroupId)
  | UIAction.setEditingSessionId v, s => UIFieldVal.os (resolve v s.editingSessionId)

end UIStore

/-- C1 counterexample: with session name "TestAgent" and typed input
" TestAgent " (surrounding whitespace only), the trimmed input equals the
session name, yet the erase action stays disabled: the claimed
trimmed-match enabling condition is false on this input. -/
theorem erase_trimmed_match_counterexample :
    ¬ ((EraseModal.eraseConfirmDisabled " TestAgent " "TestAgent" = false) ↔
       (jsTrim " TestAgent " = "TestAgent")) := by
  decide

/-- C1 (amended): in EraseConfirmationModal the destructive erase action is
enabled exactly when the typed input is character-for-character equal to the
session name; input with extra surrounding whitespace does not enable it. -/
theorem erase_enabled_iff_exact_match (typedName sessionName : String) :
    EraseModal.eraseConfirmDisabled typedName sessionName = false ↔
      typedName = sessionName := by
  simp [EraseModal.eraseConfirmDisabled, EraseModal.eraseIsMatch]

/-- C3: in both revisions of DeleteAgentConfirmModal, the action deleting the
agent together with its work directory is enabled if and only if the
confirmation text, after trimming whitespace and lower-casing, equals the
agent name after the same normalization. -/
theorem agent_erase_enabled_iff_normalized_match (confirmationText agentName : String) :
    DeleteModal.agentEraseDisabled confirmationText agentName = false ↔
      jsToLower (jsTrim confirmationText) = jsToLower (jsTrim agentName) := by
  simp [DeleteModal.agentEraseDisabled, DeleteModal.isAgentNameMatch]

/-- C2 counterexample: a scanned worktree at path "/wt/a" equals the cwd of the
open session s1, yet s1 is not a worktree child of the active session, so the
worktree is kept in the populated list, contradicting the claim that no
worktree whose path is the working directory of any open session appears. -/
theorem scan_filter_counterexample :
    Worktree.scanFilterWorktrees
        [⟨"/wt/a", "a", none⟩]
        [⟨"s1", some "other", "/wt/a"⟩]
        ⟨"main", none, "/repo"⟩
      = [⟨"/wt/a", "a", none⟩]
    ∧ ([⟨"s1", some "other", "/wt/a"⟩] : List Worktree.Session).any
        (fun s => s.cwd == "/wt/a") = true := by
  constructor
  · rfl
  · rfl

/-- C2 (amended): the populated available-worktrees list equals the scanned git
subdirectories minus exactly the entries whose path is the cwd of some open
session that is a worktree child of the active session (parentSessionId equal
to the active session id); other open sessions do not affect the list. -/
theorem scan_filter_amended (gitSubdirs : List Worktree.WorktreeInfo)
    (sessions : List Worktree.Session) (active : Worktree.Session)
    (wt : Worktree.WorktreeInfo) :
    wt ∈ Worktree.scanFilterWorktrees gitSubdirs sessions active ↔
      wt ∈ gitSubdirs ∧
        ¬ ∃ s, s ∈ sessions ∧ s.parentSessionId = some active.id ∧ s.cwd = wt.path := by
  simp [Worktree.scanFilterWorktrees, Worktree.filterOpenWorktrees,
    Worktree.worktreeChildren, List.mem_filter, List.mem_map, List.elem_iff]

/-- C4: whenever the confirmation input does not match the target name, the
destructive callbacks are unreachable through every wired event of both
modals (click, Enter on the input, Enter on the confirm button), in both
revisions of the delete modal; and the Cancel or Close callback is invocable
by a Cancel click in every state regardless of the input. -/
theorem mismatch_blocks_destructive_callbacks :
    (∀ typed session : String, ∀ ev : EraseModal.Ev,
        EraseModal.eraseIsMatch typed session = false →
          EraseModal.Cb.onConfirm ∉ EraseModal.dispatch typed session ev)
    ∧ (∀ text name : String, ∀ ev : DeleteModal.Ev,
        DeleteModal.isAgentNameMatch text name = false →
          DeleteModal.Cb.onConfirmAndErase ∉ DeleteModal.dispatchRev1 text name ev
          ∧ DeleteModal.Cb.onConfirmAndErase ∉ DeleteModal.dispatchRev2 text name ev)
    ∧ (∀ typed session : String,
        EraseModal.Cb.onCancel ∈ EraseModal.dispatch typed session EraseModal.Ev.clickCancel)
    ∧ (∀ text name : String,
        DeleteModal.Cb.onClose ∈ DeleteModal.dispatchRev1 text name DeleteModal.Ev.clickCancel
        ∧ DeleteModal.Cb.onClose ∈ DeleteModal.dispatchRev2 text name DeleteModal.Ev.clickCancel) := by
  refine ⟨?_, ?_, ?_, ?_⟩
  · intro typed session ev h
    cases ev <;>
      simp [EraseModal.dispatch, EraseModal.handleConfirm, EraseModal.handleKeyDown, h]
  · intro text name ev h
    cases ev <;>
      constructor <;>
        simp [DeleteModal.dispatchRev1, DeleteModal.dispatchRev2,
          DeleteModal.handleConfirmAndErase, DeleteModal.handleConfirm,
          DeleteModal.handleKeyDown, h]
  · intro typed session
    simp [EraseModal.dispatch]
  · intro text name
    constructor <;> simp [DeleteModal.dispatchRev1, DeleteModal.dispatchRev2]

/-- C4 witness: at the concrete mismatching input "other" against session and
agent name "target", clicking the erase button of the erase modal invokes
onConfirm in neither modal, while a Cancel click still reaches the cancel
callback. -/
theorem mismatch_blocks_destructive_callbacks_witness :
    EraseModal.Cb.onConfirm ∉
        EraseModal.dispatch "other" "target" EraseModal.Ev.clickConfirm
    ∧ DeleteModal.Cb.onConfirmAndErase ∉
        DeleteModal.dispatchRev1 "other" "target" DeleteModal.Ev.clickEraseButton
    ∧ DeleteModal.Cb.onConfirmAndErase ∉
        DeleteModal.dispatchRev2 "other" "target" (DeleteModal.Ev.keyInput "Enter")
    ∧ EraseModal.Cb.onCancel ∈
        EraseModal.dispatch "other" "target" EraseModal.Ev.clickCancel :=
  ⟨mismatch_blocks_destructive_callbacks.1 "other" "target" EraseModal.Ev.clickConfirm
      (by decide),
    (mismatch_blocks_destructive_callbacks.2.1 "other" "target"
        DeleteModal.Ev.clickEraseButton (by decide)).1,
    (mismatch_blocks_destructive_callbacks.2.1 "other" "target"
        (DeleteModal.Ev.keyInput "Enter") (by decide)).2,
    mismatch_blocks_destructive_callbacks.2.2.1 "other" "target"⟩

/-- C5: for every selected value, emitChange behaves exactly as the
specification describes: the empty value emits no target, the value
"__create_new__" emits mode create-new (base branch and new branch name
coerced to none when empty), a value beginning with "__closed__:" emits mode
existing-closed with the remainder of the value after the marker, and every
other non-empty value emits mode existing-open with the value as session
id — always exactly one target of exactly one mode. -/
theorem emit_change_matches_spec (baseBranch newBranchName value : String) (prFlag : Bool) :
    Worktree.emitChange baseBranch newBranchName value prFlag =
      Worktree.emitChangeClaimed baseBranch newBranchName value prFlag := by
  by_cases hempty : value = ""
  · subst hempty
    simp [Worktree.emitChange, Worktree.emitChangeClaimed, jsStartsWith]
  · by_cases hcreate : value = "__create_new__"
    · subst hcreate
      simp [Worktree.emitChange, Worktree.emitChangeClaimed, jsStartsWith]
    · simp [Worktree.emitChange, Worktree.emitChangeClaimed, hempty, hcreate]

/-- Helper for C6: once the cancelled flag is set, a single further event
changes nothing: the flag stays true and every continuation leaves the
component state untouched. -/
theorem wrStep_cancelled_fixed (st : Worktree.WRState) (e : Worktree.WREvent) :
    Worktree.wrStep (true, st) e = (true, st) := by
  cases e with
  | cleanup => rfl
  | scanResolve ch r => cases r <;> rfl
  | branchesResolve bb d r => rfl

/-- C6: once the cleanup of an effect has set its cancelled flag, no later
promise continuation mutates the component state: after any prior events, a
trace that has executed cleanup yields exactly the same flag and state no
matter which (and how many) scan or branch-fetch resolutions arrive
afterwards, so stale results are always discarded. -/
theorem cancelled_effect_discards_stale_results
    (init : Bool × Worktree.WRState) (pre post : List Worktree.WREvent) :
    Worktree.wrRun init (pre ++ Worktree.WREvent.cleanup :: post) =
      Worktree.wrRun init (pre ++ [Worktree.WREvent.cleanup]) := by
  have hafter : ∀ st : Worktree.WRState, ∀ evs : List Worktree.WREvent,
      Worktree.wrRun (true, st) evs = (true, st) := by
    intro st evs
    induction evs with
    | nil => rfl
    | cons e rest ih =>
        show Worktree.wrRun (Worktree.wrStep (true, st) e) rest = (true, st)
        rw [wrStep_cancelled_fixed]
        exact ih
  have hsplit : ∀ l₁ l₂ : List Worktree.WREvent, ∀ x : Bool × Worktree.WRState,
      Worktree.wrRun x (l₁ ++ l₂) = Worktree.wrRun (Worktree.wrRun x l₁) l₂ := by
    intro l₁ l₂ x
    simp [Worktree.wrRun, List.foldl_append]
  rw [hsplit pre (Worktree.WREvent.cleanup :: post) init,
    hsplit pre [Worktree.WREvent.cleanup] init]
  rcases h : Worktree.wrRun init pre with ⟨c, st⟩
  show Worktree.wrRun (Worktree.wrStep (c, st) Worktree.WREvent.cleanup) post = _
  have hclean : Worktree.wrStep (c, st) Worktree.WREvent.cleanup = (true, st) := rfl
  rw [hclean, hafter st post]
  rfl

/-- C7: for every cache state and every behaviour of the crash-reporting SDK
(module load rejecting, or the loaded module throwing in any combination),
each of captureException, captureMessage and addBreadcrumb resolves normally:
the returned outcome is never an error, so no exception propagates to the
caller. -/
theorem sentry_wrappers_never_throw
    (cached : Option Sentry.SentryModuleModel)
    (loadResult : Except Unit Sentry.SentryModuleModel) :
    (Sentry.captureExceptionRun cached loadResult).2 = Except.ok ()
    ∧ (Sentry.captureMessageRun cached loadResult).2 = Except.ok ()
    ∧ (Sentry.addBreadcrumbRun cached loadResult).2 = Except.ok () := by
  refine ⟨?_, ?_, ?_⟩
  · unfold Sentry.captureExceptionRun
    rcases h : Sentry.captureExceptionTry cached loadResult with ⟨c, r⟩
    cases r <;> rfl
  · unfold Sentry.captureMessageRun
    rcases h : Sentry.captureMessageTry cached loadResult with ⟨c, r⟩
    cases r <;> rfl
  · unfold Sentry.addBreadcrumbRun
    rcases h : Sentry.addBreadcrumbTry cached loadResult with ⟨c, r⟩
    cases r <;> rfl

/-- C8: the platform hook memoizes process-wide. A resolution of getPlatform
while mounted stores the value in the module-level cache; once the cache
holds a platform string (the IPC returns "darwin", "win32" or "linux", all
non-empty), every later invocation returns that value from its very first
render, performs no IPC, leaves the cache unchanged and reports the same
value; before any resolution the first render yields "unknown"; and a failed
IPC call leaves the cache empty, so any later invocation with the API
available performs the query again. -/
theorem os_platform_cache_behaviour :
    (∀ r : String, (OsPlatform.useOsPlatformRun none true true (Except.ok r)).cacheAfter = some r)
    ∧ (∀ p : String, p ≠ "" → ∀ apiAvailable mounted : Bool, ∀ ipc : Except Unit String,
        (OsPlatform.useOsPlatformRun (some p) apiAvailable mounted ipc).firstRender = p
        ∧ (OsPlatform.useOsPlatformRun (some p) apiAvailable mounted ipc).didIpc = false
        ∧ (OsPlatform.useOsPlatformRun (some p) apiAvailable mounted ipc).cacheAfter = some p
        ∧ (OsPlatform.useOsPlatformRun (some p) apiAvailable mounted ipc).finalPlatform = p)
    ∧ (∀ apiAvailable mounted : Bool, ∀ ipc : Except Unit String,
        (OsPlatform.useOsPlatformRun none apiAvailable mounted ipc).firstRender = "unknown")
    ∧ (∀ mounted : Bool,
        (OsPlatform.useOsPlatformRun none true mounted (Except.error ())).cacheAfter = none)
    ∧ (∀ mounted : Bool, ∀ ipc : Except Unit String,
        (OsPlatform.useOsPlatformRun none true mounted ipc).didIpc = true) := by
  refine ⟨?_, ?_, ?_, ?_, ?_⟩
  · intro r
    rfl
  · intro p hp apiAvailable mounted ipc
    have hbeq : (p == "") = false := by
      simpa using hp
    refine ⟨?_, ?_, ?_, ?_⟩ <;>
      simp [OsPlatform.useOsPlatformRun, OsPlatform.jsTruthy, OsPlatform.jsOrUnknown, hbeq]
  · intro apiAvailable mounted ipc
    cases apiAvailable <;> cases ipc <;> cases mounted <;> rfl
  · intro mounted
    cases mounted <;> rfl
  · intro mounted ipc
    cases ipc <;> cases mounted <;> rfl

/-- C8 witness: with the cache holding "darwin", an invocation of the hook
returns "darwin" from the first render, performs no IPC and keeps the cache;
and a failed IPC resolution with an empty cache leaves the cache empty. -/
theorem os_platform_cache_behaviour_witness :
    (OsPlatform.useOsPlatformRun (some "darwin") true true (Except.ok "linux")).firstRender
        = "darwin"
    ∧ (OsPlatform.useOsPlatformRun (some "darwin") true true (Except.ok "linux")).didIpc
        = false
    ∧ (OsPlatform.useOsPlatformRun none true true (Except.error ())).cacheAfter = none :=
  ⟨(os_platform_cache_behaviour.2.1 "darwin" (by decide) true true (Except.ok "linux")).1,
    (os_platform_cache_behaviour.2.1 "darwin" (by decide) true true (Except.ok "linux")).2.1,
    os_platform_cache_behaviour.2.2.2.1 true⟩

/-- C9: every uiStore action has the frame property: for every prior state,
the designated field of the action becomes exactly what the claim prescribes
(the argument, the function-updater applied to the previous value of that
field, or its negation for a toggle), and every field other than the
designated one is left unchanged. -/
theorem ui_store_actions_frame (a : UIStore.UIAction) (s : UIStore.UIStoreState)
    (f : UIStore.UIField) :
    (f = UIStore.targetField a →
        UIStore.getField (UIStore.applyAction a s) f = UIStore.claimedNewValue a s)
    ∧ (f ≠ UIStore.targetField a →
        UIStore.getField (UIStore.applyAction a s) f = UIStore.getField s f) := by
  constructor
  · intro h
    subst h
    cases a <;> rfl
  · intro h
    cases a <;> (cases f <;> first | rfl | exact absurd rfl h)

/-- C9 witness: at the initial state, setting the left sidebar to false
leaves the right panel reading unchanged, and toggling the left sidebar
stores the negation of its previous value. -/
theorem ui_store_actions_frame_witness :
    UIStore.getField
        (UIStore.applyAction
          (UIStore.UIAction.setLeftSidebarOpen (UIStore.Upd.val false))
          UIStore.initialUIState)
        UIStore.UIField.rightPanelOpen
      = UIStore.getField UIStore.initialUIState UIStore.UIField.rightPanelOpen
    ∧ UIStore.getField
        (UIStore.applyAction UIStore.UIAction.toggleLeftSidebar UIStore.initialUIState)
        UIStore.UIField.leftSidebarOpen
      = UIStore.claimedNewValue UIStore.UIAction.toggleLeftSidebar UIStore.initialUIState :=
  ⟨(ui_store_actions_frame
      (UIStore.UIAction.setLeftSidebarOpen (UIStore.Upd.val false))
      UIStore.initialUIState UIStore.UIField.rightPanelOpen).2 (by decide),
    (ui_store_actions_frame UIStore.UIAction.toggleLeftSidebar
      UIStore.initialUIState UIStore.UIField.leftSidebarOpen).1 rfl⟩

/-- C10: startMemoryMonitoring is a no-op whenever monitoring is already
running, so a second start with any arguments leaves the interval installed
by the first start, with its originally-configured parameters, in place;
stopMemoryMonitoring always leaves no interval and is idempotent; and a start
issued after a stop installs a fresh interval carrying the newly supplied
threshold and interval parameters. -/
theorem memory_monitoring_lifecycle :
    (∀ st : MemMonitor.MonitorState, ∀ t i : Nat,
        st.memoryMonitorInterval.isSome = true →
          MemMonitor.startMemoryMonitoring t i st = st)
    ∧ (∀ st : MemMonitor.MonitorState, ∀ t₁ i₁ t₂ i₂ : Nat,
        MemMonitor.startMemoryMonitoring t₂ i₂
            (MemMonitor.startMemoryMonitoring t₁ i₁ st) =
          MemMonitor.startMemoryMonitoring t₁ i₁ st)
    ∧ (∀ st : MemMonitor.MonitorState,
        (MemMonitor.stopMemoryMonitoring st).memoryMonitorInterval = none
        ∧ MemMonitor.stopMemoryMonitoring (MemMonitor.stopMemoryMonitoring st) =
            MemMonitor.stopMemoryMonitoring st)
    ∧ (∀ st : MemMonitor.MonitorState, ∀ t i : Nat,
        (MemMonitor.startMemoryMonitoring t i
            (MemMonitor.stopMemoryMonitoring st)).memoryMonitorInterval =
          some ⟨(MemMonitor.stopMemoryMonitoring st).nextTimerId, t, i⟩) := by
  refine ⟨?_, ?_, ?_, ?_⟩
  · intro st t i h
    simp [MemMonitor.startMemoryMonitoring, h]
  · intro st t₁ i₁ t₂ i₂
    rcases st with ⟨cur, nid⟩
    cases cur <;>
      simp [MemMonitor.startMemoryMonitoring]
  · intro st
    rcases st with ⟨cur, nid⟩
    cases cur <;> constructor <;> rfl
  · intro st t i
    rcases st with ⟨cur, nid⟩
    cases cur <;> rfl

/-- C10 witness: starting at a state with a running interval configured with
threshold 500 and interval 60000, a second start with different arguments
changes nothing; stopping twice equals stopping once; and a start after the
stop installs the fresh handle with the new parameters. -/
theorem memory_monitoring_lifecycle_witness :
    MemMonitor.startMemoryMonitoring 100 2000
        ⟨some ⟨0, 500, 60000⟩, 1⟩ = ⟨some ⟨0, 500, 60000⟩, 1⟩
    ∧ (MemMonitor.startMemoryMonitoring 100 2000
        (MemMonitor.stopMemoryMonitoring ⟨some ⟨0, 500, 60000⟩, 1⟩)).memoryMonitorInterval
        = some ⟨1, 100, 2000⟩ :=
  ⟨memory_monitoring_lifecycle.1 ⟨some ⟨0, 500, 60000⟩, 1⟩ 100 2000 (by decide),
    memory_monitoring_lifecycle.2.2.2 ⟨some ⟨0, 500, 60000⟩, 1⟩ 100 2000⟩
